import Mathlib

/-!
A shallow embedding of `src/github_rate_limit_checker.py`: the credential
store (`AppCredentials`), the token minter (`_get_installation_token`),
the quota client (`check_rate_limit`, `check_graphql_rate_limit`), the
aggregator (`check_all_apps`) and the three presenters (text status
classification, JSON document, Prometheus exposition).  The external world
(file system, JWT signing primitive, HTTP endpoints) is passed in as
explicit function-valued environments, and the Python object mutation is
made explicit by returning updated `AppCredentials` / `Session` values.
The embedding assumes PyJWT is importable (`JWT_AVAILABLE = True`), so the
`RuntimeError` guard at the top of `_get_installation_token` never fires.
-/

namespace GhCheck

/-- Python truthiness of an optional string field (`if app.token:`):
`None` and the empty string are falsy. -/
def optTruthy : Option String → Bool
  | none => false
  | some s => s != ""

/-- The fields of Python's `AppCredentials` object: constructor arguments
plus the mutable token-cache fields initialised in `__init__`. -/
structure AppCredentials where
  name : String
  app_id : String
  installation_id : String
  private_key_path : String
  token : Option String
  cached_installation_token : Option String
  token_expires_at : Int
deriving DecidableEq, Repr

/-- `AppCredentials.__init__` (src lines 69-77): stores every argument
verbatim and initialises the cache to `None` / `0`.  It performs no
validation of any kind. -/
def AppCredentials.init (name : String) (app_id : String) (installation_id : String)
    (private_key_path : String) (token : Option String) : AppCredentials :=
  { name := name
    app_id := app_id
    installation_id := installation_id
    private_key_path := private_key_path
    token := token
    cached_installation_token := none
    token_expires_at := 0 }

/-- An account uses PAT (static token) authentication when `app.token` is
truthy (`_setup_sessions` line 100, `_ensure_auth` line 172). -/
def tokenActive (a : AppCredentials) : Bool := optTruthy a.token

/-- An account uses GitHub-App (signing identity) authentication when
`app.app_id and app.private_key_path` is truthy (`_ensure_auth` line 176). -/
def signingActive (a : AppCredentials) : Bool :=
  (a.app_id != "") && (a.private_key_path != "")

/-- The `app_metadata` dict attached to every snapshot. -/
structure AppMetadata where
  name : String
  app_id : String
  installation_id : String
deriving DecidableEq, Repr

def metaOf (app : AppCredentials) : AppMetadata :=
  { name := app.name, app_id := app.app_id, installation_id := app.installation_id }

/-- The JWT claims set built at src lines 135-139. -/
structure JWTPayload where
  iat : Int
  exp : Int
  iss : String
deriving DecidableEq, Repr

/-- The external collaborators of the token minter: reading the private
key file, the RS256 signing primitive (`jwt.encode`), and the
installation-token exchange endpoint (installation id and bearer
assertion in, token out; `.error` models a `RequestException`). -/
structure TokenEnv where
  readKey : String → Except String String
  sign : JWTPayload → String → String
  exchange : String → String → Except String String

/-- `_get_installation_token` (src lines 109-165).  Returns the Python
`Optional[str]` result together with the updated credential object
(the mutation of `cached_installation_token` / `token_expires_at`). -/
def get_installation_token (env : TokenEnv) (app : AppCredentials) (now : Int) :
    Option String × AppCredentials :=
  if optTruthy app.cached_installation_token ∧ app.token_expires_at > now + 300 then
    (app.cached_installation_token, app)
  else
    match env.readKey app.private_key_path with
    | .error _ => (none, app)
    | .ok private_key =>
      let jwt_token := env.sign { iat := now, exp := now + 600, iss := app.app_id } private_key
      if app.installation_id != "" then
        match env.exchange app.installation_id jwt_token with
        | .ok tok =>
          (some tok, { app with cached_installation_token := some tok,
                                token_expires_at := now + 3600 })
        | .error _ => (none, app)
      else
        (some jwt_token, app)

/-- The per-app `requests.Session`, reduced to the only header state the
program manipulates per account: the `Authorization` header. -/
structure Session where
  authorization : Option String
deriving DecidableEq, Repr

/-- `_setup_sessions` for one app (src lines 96-107). -/
def setup_session (app : AppCredentials) : Session :=
  if optTruthy app.token then
    { authorization := some ("token " ++ app.token.getD "") }
  else
    { authorization := none }

/-- `_ensure_auth` (src lines 167-179).  On PAT accounts it is a no-op;
on signing accounts it calls the minter and sets the header only when a
truthy token came back — a `None` (or empty) result is silently dropped
and the session keeps its previous header. -/
def ensure_auth (env : TokenEnv) (app : AppCredentials) (s : Session) (now : Int) :
    Session × AppCredentials :=
  if optTruthy app.token then (s, app)
  else if (app.app_id != "") && (app.private_key_path != "") then
    let r := get_installation_token env app now
    match r.fst with
    | some t =>
      if t = "" then (s, r.snd)
      else ({ authorization := some ("token " ++ t) }, r.snd)
    | none => (s, r.snd)
  else (s, app)

/-- One resource category of the `/rate_limit` response (missing fields
default to `0` via `.get`, so the record is total). -/
structure ResourceLimits where
  limit : Int
  remaining : Int
  used : Int
  reset : Int
deriving DecidableEq, Repr

/-- The parsed JSON body of a successful `/rate_limit` GET. -/
structure RestBody where
  resources : List (String × ResourceLimits)
deriving DecidableEq, Repr

/-- The dict returned by `check_rate_limit`: either the response body with
`app_metadata` added, or an `error` dict with `app_metadata`. -/
inductive RestSnapshot where
  | success (body : RestBody) (meta : AppMetadata)
  | failure (error : String) (meta : AppMetadata)
deriving DecidableEq, Repr

def RestSnapshot.isFailure : RestSnapshot → Bool
  | .success _ _ => false
  | .failure _ _ => true

/-- The `data.rateLimit` object of the GraphQL response. -/
structure GraphRateLimit where
  limit : Int
  cost : Int
  remaining : Int
  resetAt : String
  used : Int
  nodeCount : Int
deriving DecidableEq, Repr

/-- The parsed JSON body of a GraphQL POST that returned 2xx: an optional
top-level `errors` list (presence matters, even if empty) and an optional
`data.rateLimit` object (`none` models a missing sub-object). -/
structure GraphBody where
  errors : Option (List String)
  rateLimit : Option GraphRateLimit
deriving DecidableEq, Repr

/-- The dict returned by `check_graphql_rate_limit`: the `rateLimit`
record (possibly empty, modelled `none`) with `app_metadata` added, or an
`error` dict holding either the response `errors` list or the text of a
`RequestException`. -/
inductive GraphSnapshot where
  | success (rateLimit : Option GraphRateLimit) (meta : AppMetadata)
  | apiError (errors : List String) (meta : AppMetadata)
  | transportError (msg : String) (meta : AppMetadata)
deriving DecidableEq, Repr

def GraphSnapshot.isFailure : GraphSnapshot → Bool
  | .success _ _ => false
  | .apiError _ _ => true
  | .transportError _ _ => true

/-- The external HTTP endpoints of the quota client, as functions of the
session's current `Authorization` header. -/
structure ClientEnv where
  tok : TokenEnv
  restGet : Option String → Except String RestBody
  graphPost : Option String → Except String GraphBody

/-- `check_rate_limit` (src lines 181-213): ensure auth, GET
`/rate_limit`, tag with metadata; a `RequestException` becomes an error
dict.  Returns the snapshot plus the updated session and credentials. -/
def check_rate_limit (env : ClientEnv) (app : AppCredentials) (s : Session) (now : Int) :
    RestSnapshot × Session × AppCredentials :=
  let r := ensure_auth env.tok app s now
  match env.restGet r.fst.authorization with
  | .ok body => (.success body (metaOf app), r.fst, r.snd)
  | .error e => (.failure e (metaOf app), r.fst, r.snd)

/-- `check_graphql_rate_limit` (src lines 215-275): ensure auth, POST the
fixed query; a body with a top-level `errors` key is an error dict even on
HTTP 200; a missing `data.rateLimit` yields an empty record tagged with
metadata. -/
def check_graphql_rate_limit (env : ClientEnv) (app : AppCredentials) (s : Session) (now : Int) :
    GraphSnapshot × Session × AppCredentials :=
  let r := ensure_auth env.tok app s now
  match env.graphPost r.fst.authorization with
  | .error e => (.transportError e (metaOf app), r.fst, r.snd)
  | .ok body =>
    match body.errors with
    | some es => (.apiError es (metaOf app), r.fst, r.snd)
    | none => (.success body.rateLimit (metaOf app), r.fst, r.snd)

/-- The merged per-app record built by `_check_app_limits`. -/
structure AppResult where
  rest_api : RestSnapshot
  graphql : GraphSnapshot
deriving DecidableEq, Repr

/-- One value of the `check_all_apps` result dict: either the merged
record, or the crash marker built when `future.result()` raised. -/
inductive Entry where
  | ok (r : AppResult)
  | failure (error : String) (meta : AppMetadata)
deriving DecidableEq, Repr

/-- The entry `check_all_apps` stores for one app: the task's result, or
— when the task raised — an error dict with that app's metadata
(src lines 296-307).  The task is a parameter because a worker thread may
raise arbitrary exceptions (modelled `.error`). -/
def taskEntry (task : AppCredentials → Except String AppResult) (app : AppCredentials) : Entry :=
  match task app with
  | .ok r => .ok r
  | .error e => .failure e (metaOf app)

/-- Python dict assignment `results[k] = v` on an insertion-ordered dict:
replace in place if the key exists, else append. -/
def dictInsert (m : List (String × Entry)) (k : String) (v : Entry) : List (String × Entry) :=
  if (m.map Prod.fst).contains k then
    m.map (fun p => if p.fst = k then (k, v) else p)
  else
    m ++ [(k, v)]

/-- `check_all_apps` (src lines 277-309): one task per app, every
completion (normal or raised) recorded under `app.name`.  `as_completed`
yields tasks in a nondeterministic order; the theorems below are stated
so that they hold for the insertion order given here and, names being
distinct, for any order. -/
def check_all_apps (task : AppCredentials → Except String AppResult)
    (apps : List AppCredentials) : List (String × Entry) :=
  apps.foldl (fun results app => dictInsert results app.name (taskEntry task app)) []

/-- The three status labels printed by `print_rate_limit_status`. -/
inductive Status where
  | HEALTHY
  | WARNING
  | CRITICAL
deriving DecidableEq, Repr

/-- The classification of src lines 354-363: percentage of remaining
quota (0 when `limit <= 0`), HEALTHY above 50, WARNING above 20,
CRITICAL otherwise.  Python float arithmetic is modelled exactly over
`ℚ`. -/
def classify_status (limit : Int) (remaining : Int) : Status :=
  let percentage_remaining : ℚ := if limit > 0 then (remaining : ℚ) / (limit : ℚ) * 100 else 0
  if percentage_remaining > 50 then .HEALTHY
  else if percentage_remaining > 20 then .WARNING
  else .CRITICAL

/-- A JSON-like value, detailed just enough to state the shape of the
document printed in `--json` mode; snapshots stay opaque. -/
inductive JVal where
  | str (s : String)
  | obj (fields : List (String × JVal))
  | snapshot (e : Entry)

/-- The document `main` serialises in JSON mode (src lines 613-617 and
632-636): `{'timestamp': ..., 'apps': all_app_data}`, as an ordered field
list. -/
def json_output (timestamp : String) (all_app_data : List (String × Entry)) :
    List (String × JVal) :=
  [("timestamp", JVal.str timestamp),
   ("apps", JVal.obj (all_app_data.map (fun p => (p.fst, JVal.snapshot p.snd))))]

/-- One Prometheus gauge line before text rendering: metric name, label
string, value. -/
structure Metric where
  metricName : String
  labels : String
  value : Int
deriving DecidableEq, Repr

/-- The label set `app_name=...,app_id=...,installation_id=...`. -/
def appLabels (app_name : String) (app_id : String) (installation_id : String) : String :=
  "app_name=\"" ++ app_name ++ "\",app_id=\"" ++ app_id ++
    "\",installation_id=\"" ++ installation_id ++ "\""

/-- The REST label set, `resource=...` first (src line 410). -/
def resourceLabels (resource : String) (app_name : String) (app_id : String)
    (installation_id : String) : String :=
  "resource=\"" ++ resource ++ "\"," ++ appLabels app_name app_id installation_id

/-- `rest_data.get('app_metadata', {})`: both the success and the error
dict carry metadata. -/
def restMeta : RestSnapshot → AppMetadata
  | .success _ m => m
  | .failure _ m => m

/-- `graphql_data.get(field, 0)` when the rateLimit record may be the
empty dict. -/
def glField (rl : Option GraphRateLimit) (f : GraphRateLimit → Int) : Int :=
  match rl with
  | some g => f g
  | none => 0

/-- The metric lines `MetricsHandler.do_GET` emits for one entry of
`check_all_apps` (src lines 393-421).  A crash-marker entry has no
`rest_api` key, so its metadata lookup yields `unknown` labels, its
status is 1 (the `'error' in rest_data` test sees the empty dict) and it
emits no resource or GraphQL lines.  The health gauge is computed from
the REST snapshot alone; GraphQL gauges appear only when the GraphQL
snapshot is a success (its dict always holds `app_metadata`, so it is
never falsy). -/
def app_metric_lines (app_name : String) (e : Entry) : List Metric :=
  match e with
  | .failure _ _ =>
    [{ metricName := "github_app_status", labels := appLabels app_name "unknown" "unknown",
       value := 1 }]
  | .ok r =>
    let meta := restMeta r.rest_api
    let status : Int := match r.rest_api with | .failure _ _ => 0 | .success _ _ => 1
    let restLines : List Metric :=
      match r.rest_api with
      | .success body _ =>
        body.resources.flatMap (fun p =>
          let bl := resourceLabels p.fst app_name meta.app_id meta.installation_id
          [{ metricName := "github_rate_limit_limit", labels := bl, value := p.snd.limit },
           { metricName := "github_rate_limit_remaining", labels := bl, value := p.snd.remaining },
           { metricName := "github_rate_limit_used", labels := bl, value := p.snd.used },
           { metricName := "github_rate_limit_reset", labels := bl, value := p.snd.reset }])
      | .failure _ _ => []
    let graphLines : List Metric :=
      match r.graphql with
      | .success rl _ =>
        let bl := appLabels app_name meta.app_id meta.installation_id
        [{ metricName := "github_graphql_rate_limit_limit", labels := bl,
           value := glField rl GraphRateLimit.limit },
         { metricName := "github_graphql_rate_limit_remaining", labels := bl,
           value := glField rl GraphRateLimit.remaining },
         { metricName := "github_graphql_rate_limit_used", labels := bl,
           value := glField rl GraphRateLimit.used }]
      | .apiError _ _ => []
      | .transportError _ _ => []
    { metricName := "github_app_status", labels := appLabels app_name meta.app_id meta.installation_id,
      value := status } :: (restLines ++ graphLines)

/-- Text rendering of one gauge line, `name{labels} value`. -/
def renderMetric (m : Metric) : String :=
  m.metricName ++ "\x7b" ++ m.labels ++ "\x7d " ++ toString m.value

/-- The full `/metrics` line list for an aggregated result. -/
def prometheus_metrics (all_app_data : List (String × Entry)) : List String :=
  all_app_data.flatMap (fun p => (app_metric_lines p.fst p.snd).map renderMetric)

/-! ## Concrete fixtures used by witnesses and counterexamples -/

/-- A deterministic stand-in for the RS256 signing primitive: injective in
the payload, so distinct claim sets give distinct assertions. -/
def signFn : JWTPayload → String → String :=
  fun p k => "JWT." ++ toString p.iat ++ "." ++ toString p.exp ++ "." ++ p.iss ++ "." ++ k

/-- A GitHub-App account with a signing identity and an installation id. -/
def appSig : AppCredentials :=
  AppCredentials.init "ci-automation" "1187645" "63220290" "/secrets/app1.pem" none

/-- `appSig` with a warm token cache far from expiry. -/
def appCached : AppCredentials :=
  { appSig with cached_installation_token := some "ghs_cached", token_expires_at := 5000 }

/-- A GitHub-App account with no installation (scope) id. -/
def appNoInst : AppCredentials :=
  AppCredentials.init "issuer-only" "42" "" "/secrets/app2.pem" none

/-- A PAT account. -/
def appPat : AppCredentials :=
  AppCredentials.init "default" "" "" "" (some "ghp_pat")

/-- Token environment where the key file is readable but the
token-exchange endpoint fails with a transport error. -/
def envExchangeFail : TokenEnv :=
  { readKey := fun _ => .ok "PEMKEY"
    sign := signFn
    exchange := fun _ _ => .error "504 Server Error" }

/-- Token environment where both signing and exchange succeed. -/
def envExchangeOk : TokenEnv :=
  { readKey := fun _ => .ok "PEMKEY"
    sign := signFn
    exchange := fun _ _ => .ok "ghs_fresh" }

/-- A sample `/rate_limit` body (the spec's fixed sample response). -/
def body0 : RestBody :=
  { resources := [("core", { limit := 5000, remaining := 4000, used := 1000,
                             reset := 1700000000 })] }

/-- Client environment where the private key file is unreadable (auth
fails) but the unauthenticated REST GET succeeds. -/
def envAuthFail : ClientEnv :=
  { tok := { readKey := fun _ => .error "Permission denied"
             sign := signFn
             exchange := fun _ _ => .error "unused" }
    restGet := fun _ => .ok body0
    graphPost := fun _ => .error "unused" }

/-- Client environment where auth works and the GraphQL body comes back
2xx with no `errors` key and no `data.rateLimit` sub-object. -/
def envGraphEmpty : ClientEnv :=
  { tok := envExchangeOk
    restGet := fun _ => .ok body0
    graphPost := fun _ => .ok { errors := none, rateLimit := none } }

/-- A task function for the aggregator that crashes on `ci-automation`
and succeeds elsewhere. -/
def task0 : AppCredentials → Except String AppResult := fun a =>
  if a.name = "ci-automation" then .error "boom"
  else .ok { rest_api := .success body0 (metaOf a), graphql := .success none (metaOf a) }

/-- A sample failure-marker entry. -/
def entryA : Entry :=
  .failure "boom" { name := "acct1", app_id := "1", installation_id := "2" }

/-- An aggregated result with one account whose REST fetch succeeded and
whose GraphQL fetch failed. -/
def data1 : List (String × Entry) :=
  [("ci-automation",
    Entry.ok { rest_api := RestSnapshot.success body0 (metaOf appSig),
               graphql := GraphSnapshot.transportError "timeout" (metaOf appSig) })]

/-! ## Theorems -/

/-- C3 (counterexample): an account holding BOTH a static token and a
full signing identity is constructible — `AppCredentials.__init__`
rejects nothing, so the claimed exactly-one-of invariant is not enforced
at construction. -/
theorem C3_counterexample :
    tokenActive (AppCredentials.init "dual" "1187645" "63220290" "/secrets/k.pem"
      (some "ghp_x")) = true ∧
    signingActive (AppCredentials.init "dual" "1187645" "63220290" "/secrets/k.pem"
      (some "ghp_x")) = true := by
  decide

/-- C3 (amended): construction is unvalidated — `AppCredentials.__init__`
stores every argument verbatim for any combination of static token and
signing-identity fields (both set, either, or neither) and merely
initialises the token cache; no exactly-one-of invariant is enforced at
construction. -/
theorem C3_construction_unvalidated (name : String) (app_id : String)
    (installation_id : String) (private_key_path : String) (token : Option String) :
    (AppCredentials.init name app_id installation_id private_key_path token).name = name ∧
    (AppCredentials.init name app_id installation_id private_key_path token).app_id = app_id ∧
    (AppCredentials.init name app_id installation_id private_key_path token).installation_id
      = installation_id ∧
    (AppCredentials.init name app_id installation_id private_key_path
      token).private_key_path = private_key_path ∧
    (AppCredentials.init name app_id installation_id private_key_path token).token = token ∧
    (AppCredentials.init name app_id installation_id private_key_path
      token).cached_installation_token = none ∧
    (AppCredentials.init name app_id installation_id private_key_path
      token).token_expires_at = 0 :=
  ⟨rfl, rfl, rfl, rfl, rfl, rfl, rfl⟩

/-- C6: for `limit > 0`, the text presenter classifies HEALTHY exactly
when `remaining/limit > 1/2` (strict), WARNING exactly when
`1/5 < remaining/limit ≤ 1/2`, CRITICAL exactly when
`remaining/limit ≤ 1/5`; in particular a ratio of exactly one half is
WARNING. -/
theorem C6_classify (limit : Int) (remaining : Int) (h : 0 < limit) :
    (classify_status limit remaining = Status.HEALTHY ↔
      1/2 < (remaining : ℚ) / (limit : ℚ)) ∧
    (classify_status limit remaining = Status.WARNING ↔
      (1/5 < (remaining : ℚ) / (limit : ℚ) ∧ (remaining : ℚ) / (limit : ℚ) ≤ 1/2)) ∧
    (classify_status limit remaining = Status.CRITICAL ↔
      (remaining : ℚ) / (limit : ℚ) ≤ 1/5) ∧
    (2 * remaining = limit → classify_status limit remaining = Status.WARNING) := by
  have hq : (0:ℚ) < (limit:ℚ) := by exact_mod_cast h
  have hne : (limit:ℚ) ≠ 0 := ne_of_gt hq
  set q : ℚ := (remaining : ℚ) / (limit : ℚ) with hqdef
  have hcs : classify_status limit remaining =
      (if q * 100 > 50 then Status.HEALTHY
       else if q * 100 > 20 then Status.WARNING else Status.CRITICAL) := by
    simp only [classify_status, h, if_pos, gt_iff_lt, hqdef]
  have e1 : 50 < q * 100 ↔ 1/2 < q := by constructor <;> intro h1 <;> linarith
  have e2 : 20 < q * 100 ↔ 1/5 < q := by constructor <;> intro h1 <;> linarith
  rw [hcs]
  refine ⟨?_, ?_, ?_, ?_⟩
  · by_cases h1 : q * 100 > 50
    · simp only [if_pos h1]
      simpa using (e1.mp h1)
    · rw [if_neg h1]
      have h2 : ¬ (1/2 < q) := fun hc => h1 (e1.mpr hc)
      by_cases h3 : q * 100 > 20
      · rw [if_pos h3]
        exact ⟨fun hc => absurd hc (by decide), fun hc => absurd hc h2⟩
      · rw [if_neg h3]
        exact ⟨fun hc => absurd hc (by decide), fun hc => absurd hc h2⟩
  · by_cases h1 : q * 100 > 50
    · rw [if_pos h1]
      have h2 : 1/2 < q := e1.mp h1
      constructor
      · intro hc; exact absurd hc (by decide)
      · rintro ⟨_, h3⟩; linarith
    · rw [if_neg h1]
      have h2 : ¬ (1/2 < q) := fun hc => h1 (e1.mpr hc)
      by_cases h3 : q * 100 > 20
      · rw [if_pos h3]
        exact ⟨fun _ => ⟨e2.mp h3, by linarith⟩, fun _ => rfl⟩
      · rw [if_neg h3]
        have h4 : ¬ (1/5 < q) := fun hc => h3 (e2.mpr hc)
        exact ⟨fun hc => absurd hc (by decide), fun ⟨h5, _⟩ => absurd h5 h4⟩
  · by_cases h1 : q * 100 > 50
    · rw [if_pos h1]
      have h2 : 1/2 < q := e1.mp h1
      exact ⟨fun hc => absurd hc (by decide), fun h3 => by linarith⟩
    · rw [if_neg h1]
      by_cases h3 : q * 100 > 20
      · rw [if_pos h3]
        have h4 : 1/5 < q := e2.mp h3
        exact ⟨fun hc => absurd hc (by decide), fun h5 => by linarith⟩
      · rw [if_neg h3]
        have h4 : ¬ (1/5 < q) := fun hc => h3 (e2.mpr hc)
        exact ⟨fun _ => by linarith [not_lt.mp h4], fun _ => rfl⟩
  · intro h2
    have hc : (2:ℚ) * (remaining:ℚ) = (limit:ℚ) := by exact_mod_cast h2
    have hql : q = 1/2 := by
      rw [hqdef, div_eq_iff hne]; linarith
    rw [if_neg (by rw [hql]; norm_num), if_pos (by rw [hql]; norm_num)]

/-- C6 (witness): at the spec's boundary input `limit = 5000`,
`remaining = 2500` the ratio is exactly one half and the classification
is WARNING. -/
theorem C6_witness :
    0 < (5000:Int) ∧ classify_status 5000 2500 = Status.WARNING :=
  ⟨by norm_num, (C6_classify 5000 2500 (by norm_num)).2.2.2 (by norm_num)⟩

/-- C1 (counterexample): for an account with a signing identity and an
installation (scope) id, when the token-exchange call fails,
`_get_installation_token` returns `None` — not the raw signed JWT
assertion the claim promises. -/
theorem C1_counterexample :
    (get_installation_token envExchangeFail appSig 1000).fst = none := by
  decide

/-- C1 (amended): for an account with a signing identity and a scope id,
when the token-exchange call fails, `_get_installation_token` logs a
warning and returns `None` (no usable credential, cache untouched); the
raw signed assertion is returned as the credential only on accounts with
no scope id configured. -/
theorem C1_exchange_failure_returns_none (env : TokenEnv) (app : AppCredentials)
    (now : Int) (key : String) (e : String)
    (hcache : ¬ (optTruthy app.cached_installation_token = true ∧
      app.token_expires_at > now + 300))
    (hkey : env.readKey app.private_key_path = .ok key)
    (hinst : (app.installation_id != "") = true)
    (hex : env.exchange app.installation_id
      (env.sign { iat := now, exp := now + 600, iss := app.app_id } key) = .error e) :
    get_installation_token env app now = (none, app) := by
  simp [get_installation_token, hcache, hkey, hinst, hex]

/-- C1 (witness): the amended behaviour at a concrete account and failing
exchange endpoint. -/
theorem C1_witness :
    envExchangeFail.exchange appSig.installation_id
      (envExchangeFail.sign { iat := 1000, exp := 1600, iss := appSig.app_id } "PEMKEY")
      = .error "504 Server Error" ∧
    get_installation_token envExchangeFail appSig 1000 = (none, appSig) :=
  ⟨rfl, C1_exchange_failure_returns_none envExchangeFail appSig 1000 "PEMKEY"
    "504 Server Error" (by decide) rfl (by decide) rfl⟩

/-- C4: with a cached token whose expiry is strictly beyond `now + 300`,
`_get_installation_token` returns the cached token with the credential
state unmodified; when the cache is absent or within the 5-minute margin,
a fresh credential is produced instead (the freshly exchanged token on
scoped accounts, the fresh assertion on unscoped ones). -/
theorem C4_token_cache (env : TokenEnv) (app : AppCredentials) (now : Int) :
    (optTruthy app.cached_installation_token = true ∧ app.token_expires_at > now + 300 →
      get_installation_token env app now = (app.cached_installation_token, app)) ∧
    (¬ (optTruthy app.cached_installation_token = true ∧ app.token_expires_at > now + 300) →
      ∀ key tok : String, env.readKey app.private_key_path = .ok key →
        (app.installation_id != "") = true →
        env.exchange app.installation_id
          (env.sign { iat := now, exp := now + 600, iss := app.app_id } key) = .ok tok →
        get_installation_token env app now =
          (some tok, { app with cached_installation_token := some tok,
                                token_expires_at := now + 3600 })) ∧
    (¬ (optTruthy app.cached_installation_token = true ∧ app.token_expires_at > now + 300) →
      ∀ key : String, env.readKey app.private_key_path = .ok key →
        (app.installation_id != "") = false →
        get_installation_token env app now =
          (some (env.sign { iat := now, exp := now + 600, iss := app.app_id } key), app)) := by
  refine ⟨?_, ?_, ?_⟩
  · intro hcache
    simp [get_installation_token, hcache]
  · intro hcache key tok hkey hinst hex
    simp [get_installation_token, hcache, hkey, hinst, hex]
  · intro hcache key hkey hinst
    simp [get_installation_token, hcache, hkey, hinst]

/-- C4 (witness): the warm cache is returned unchanged, and a cold cache
mints and caches a fresh exchanged token. -/
theorem C4_witness :
    (optTruthy appCached.cached_installation_token = true ∧
      appCached.token_expires_at > 1000 + 300) ∧
    get_installation_token envExchangeOk appCached 1000 =
      (appCached.cached_installation_token, appCached) ∧
    get_installation_token envExchangeOk appSig 1000 =
      (some "ghs_fresh",
        { appSig with
            cached_installation_token := some "ghs_fresh"
            token_expires_at := 1000 + 3600 }) :=
  ⟨⟨by decide, by decide⟩,
   (C4_token_cache envExchangeOk appCached 1000).1 ⟨by decide, by decide⟩,
   (C4_token_cache envExchangeOk appSig 1000).2.1 (by decide) "PEMKEY" "ghs_fresh"
     rfl (by decide) rfl⟩

/-- C5: whenever the minter builds a new assertion at time `now`, the
claims set passed to the signing primitive is exactly
`{iat = now, exp = now + 600, iss = app.app_id}` (this holds for every
signing function, so the payload is pinned), and on a successful exchange
the cached entry stored is exactly `{token, expiry = now + 3600}`. -/
theorem C5_mint_claims (env : TokenEnv) (app : AppCredentials) (now : Int) (key : String)
    (hcache : ¬ (optTruthy app.cached_installation_token = true ∧
      app.token_expires_at > now + 300))
    (hkey : env.readKey app.private_key_path = .ok key) :
    ((app.installation_id != "") = false →
      get_installation_token env app now =
        (some (env.sign { iat := now, exp := now + 600, iss := app.app_id } key), app)) ∧
    (∀ tok : String, (app.installation_id != "") = true →
      env.exchange app.installation_id
        (env.sign { iat := now, exp := now + 600, iss := app.app_id } key) = .ok tok →
      (get_installation_token env app now).snd.cached_installation_token = some tok ∧
      (get_installation_token env app now).snd.token_expires_at = now + 3600 ∧
      (get_installation_token env app now).fst = some tok) := by
  constructor
  · intro hinst
    simp [get_installation_token, hcache, hkey, hinst]
  · intro tok hinst hex
    simp [get_installation_token, hcache, hkey, hinst, hex]

/-- C5 (witness): on an account with no scope id the fresh assertion
signed over exactly `{iat = 2000, exp = 2600, iss = "42"}` is returned
directly. -/
theorem C5_witness :
    get_installation_token envExchangeOk appNoInst 2000 =
      (some (signFn { iat := 2000, exp := 2600, iss := "42" } "PEMKEY"), appNoInst) :=
  (C5_mint_claims envExchangeOk appNoInst 2000 "PEMKEY" (by decide) rfl).1 (by decide)

/-- C2 (counterexample): the private key of `appSig` is unreadable, so
the token minter fails — yet the snapshot `check_rate_limit` returns is a
SUCCESS (the auth failure is swallowed by `_ensure_auth` and the
unauthenticated GET went through), not a failure marker carrying the auth
error. -/
theorem C2_counterexample :
    (get_installation_token envAuthFail.tok appSig 1000).fst = none ∧
    RestSnapshot.isFailure
      (check_rate_limit envAuthFail appSig { authorization := none } 1000).fst = false := by
  decide

/-- C2 (amended): when the token minter fails on a signing account,
`_ensure_auth` silently leaves the session's Authorization header
unchanged and the rate-limit request is attempted anyway; the snapshot is
a failure marker only if that HTTP request itself fails, and then it
carries the HTTP error, not the auth error. -/
theorem C2_auth_failure_swallowed (env : ClientEnv) (app : AppCredentials) (s : Session)
    (now : Int)
    (hpat : optTruthy app.token = false)
    (hsig : ((app.app_id != "") && (app.private_key_path != "")) = true)
    (hnone : (get_installation_token env.tok app now).fst = none) :
    check_rate_limit env app s now =
      ((match env.restGet s.authorization with
        | .ok body => RestSnapshot.success body (metaOf app)
        | .error e => RestSnapshot.failure e (metaOf app)),
       s, (get_installation_token env.tok app now).snd) := by
  cases hr : env.restGet s.authorization with
  | ok body => simp [check_rate_limit, ensure_auth, hpat, hsig, hnone, hr]
  | error e => simp [check_rate_limit, ensure_auth, hpat, hsig, hnone, hr]

/-- C2 (witness): the amended behaviour at the concrete unreadable-key
account — auth fails, the unauthenticated GET succeeds, the snapshot is
the success body. -/
theorem C2_witness :
    optTruthy appSig.token = false ∧
    (get_installation_token envAuthFail.tok appSig 1000).fst = none ∧
    check_rate_limit envAuthFail appSig { authorization := none } 1000 =
      (RestSnapshot.success body0 (metaOf appSig), { authorization := none }, appSig) := by
  refine ⟨rfl, by decide, ?_⟩
  have h := C2_auth_failure_swallowed envAuthFail appSig { authorization := none } 1000
    rfl (by decide) (by decide)
  exact h

/-- C8: for a GraphQL response that came back 2xx, a body containing a
top-level `errors` list yields a failure marker holding that list, and a
body lacking the `data.rateLimit` sub-object yields a success snapshot
with an empty record (plus account metadata), not a failure. -/
theorem C8_graphql_response (env : ClientEnv) (app : AppCredentials) (s : Session)
    (now : Int) (body : GraphBody)
    (hok : env.graphPost (ensure_auth env.tok app s now).fst.authorization = .ok body) :
    (∀ es, body.errors = some es →
      (check_graphql_rate_limit env app s now).fst = .apiError es (metaOf app)) ∧
    (body.errors = none →
      (check_graphql_rate_limit env app s now).fst = .success body.rateLimit (metaOf app)) ∧
    (body.errors = none → body.rateLimit = none →
      (check_graphql_rate_limit env app s now).fst = .success none (metaOf app)) := by
  refine ⟨?_, ?_, ?_⟩
  · intro es hes
    simp [check_graphql_rate_limit, hok, hes]
  · intro hes
    simp [check_graphql_rate_limit, hok, hes]
  · intro hes hrl
    simp [check_graphql_rate_limit, hok, hes, hrl]

/-- C8 (witness): a 2xx body with no `errors` key and no `data.rateLimit`
sub-object gives an empty-record success snapshot for the PAT account. -/
theorem C8_witness :
    envGraphEmpty.graphPost
      (ensure_auth envGraphEmpty.tok appPat { authorization := some "token ghp_pat" }
        500).fst.authorization = Except.ok { errors := none, rateLimit := none } ∧
    (check_graphql_rate_limit envGraphEmpty appPat
      { authorization := some "token ghp_pat" } 500).fst = .success none (metaOf appPat) :=
  ⟨rfl,
   (C8_graphql_response envGraphEmpty appPat { authorization := some "token ghp_pat" } 500
     { errors := none, rateLimit := none } rfl).2.2 rfl rfl⟩

/-- Folding `dictInsert` over apps whose names are all fresh relative to
the accumulator (and pairwise distinct) appends one entry per app. -/
theorem foldl_dictInsert_eq (task : AppCredentials → Except String AppResult)
    (apps : List AppCredentials) :
    ∀ acc : List (String × Entry),
      (acc.map Prod.fst ++ apps.map AppCredentials.name).Nodup →
      apps.foldl (fun results app => dictInsert results app.name (taskEntry task app)) acc =
        acc ++ apps.map (fun a => (a.name, taskEntry task a)) := by
  induction apps with
  | nil =>
    intro acc _
    simp
  | cons a as ih =>
    intro acc h
    have hmem : a.name ∉ acc.map Prod.fst := by
      rcases List.nodup_append.mp h with ⟨_, _, hdisj⟩
      intro hcon
      exact hdisj hcon (by simp)
    have hins : dictInsert acc a.name (taskEntry task a)
        = acc ++ [(a.name, taskEntry task a)] := by
      simp [dictInsert, hmem]
    rw [List.foldl_cons, hins, ih (acc ++ [(a.name, taskEntry task a)]) (by simpa using h)]
    simp

/-- Looking up an app's name in the association list of per-app entries
finds that app's own entry when names are pairwise distinct. -/
theorem lookup_name_map (task : AppCredentials → Except String AppResult) :
    ∀ apps : List AppCredentials, (apps.map AppCredentials.name).Nodup →
      ∀ app ∈ apps,
        (apps.map (fun a => (a.name, taskEntry task a))).lookup app.name
          = some (taskEntry task app) := by
  intro apps
  induction apps with
  | nil =>
    intro _ app hmem
    cases hmem
  | cons b bs ih =>
    intro hnd app hmem
    have hnd' : (∀ x ∈ bs, ¬ x.name = b.name) ∧
        (bs.map AppCredentials.name).Nodup := by simpa using hnd
    rcases List.mem_cons.mp hmem with rfl | hmem2
    · simp [List.lookup]
    · have hne : (app.name == b.name) = false :=
        beq_eq_false_iff_ne.mpr (hnd'.1 app hmem2)
      simp only [List.map_cons, List.lookup, hne]
      exact ih hnd'.2 app hmem2

/-- C7: with pairwise-distinct account names, `check_all_apps` produces
exactly one entry per account, keyed by name and in input order; each
account's entry is its own task's outcome — a task that raised is
recorded as a failure marker under that account's key, and no account's
failure disturbs any other account's entry. -/
theorem C7_aggregation (task : AppCredentials → Except String AppResult)
    (apps : List AppCredentials)
    (hnodup : (apps.map AppCredentials.name).Nodup) :
    (check_all_apps task apps).map Prod.fst = apps.map AppCredentials.name ∧
    ∀ app ∈ apps,
      (check_all_apps task apps).lookup app.name = some (taskEntry task app) := by
  have heq : check_all_apps task apps = apps.map (fun a => (a.name, taskEntry task a)) := by
    have h := foldl_dictInsert_eq task apps [] (by simpa using hnodup)
    simpa [check_all_apps] using h
  constructor
  · rw [heq]
    simp
  · intro app hmem
    rw [heq]
    exact lookup_name_map task apps hnodup app hmem

/-- C7 (witness): two distinctly named accounts where the task crashes on
`ci-automation`: the result keys are the two names, the crashed account's
entry is its failure marker, the healthy account's entry is intact. -/
theorem C7_witness :
    ([appPat, appSig].map AppCredentials.name).Nodup ∧
    (check_all_apps task0 [appPat, appSig]).map Prod.fst
      = [appPat, appSig].map AppCredentials.name ∧
    (check_all_apps task0 [appPat, appSig]).lookup appSig.name
      = some (Entry.failure "boom" (metaOf appSig)) ∧
    (check_all_apps task0 [appPat, appSig]).lookup appPat.name
      = some (taskEntry task0 appPat) :=
  ⟨by decide,
   (C7_aggregation task0 [appPat, appSig] (by decide)).1,
   by
     have h := (C7_aggregation task0 [appPat, appSig] (by decide)).2 appSig (by decide)
     simpa [taskEntry, task0, appSig] using h,
   (C7_aggregation task0 [appPat, appSig] (by decide)).2 appPat (by decide)⟩

/-- C9 (counterexample): the JSON document emitted for a one-account
aggregated result has NO top-level key `accounts` — the per-account map
lives under the key `apps`. -/
theorem C9_counterexample :
    (json_output "2026-01-01T00:00:00+00:00" [("acct1", entryA)]).lookup "accounts" = none ∧
    (json_output "2026-01-01T00:00:00+00:00" [("acct1", entryA)]).map Prod.fst
      = ["timestamp", "apps"] := by
  constructor <;> rfl

/-- C9 (amended): the JSON presentation emits a document of shape
`{timestamp: <render-time ISO8601>, apps: {<account name>: <raw snapshot
structure>}}` — the per-account map is stored under the top-level key
`apps` (not `accounts`), and it has exactly the aggregated result's
account names as keys. -/
theorem C9_json_shape (ts : String) (all_app_data : List (String × Entry)) :
    (json_output ts all_app_data).map Prod.fst = ["timestamp", "apps"] ∧
    (json_output ts all_app_data).lookup "timestamp" = some (JVal.str ts) ∧
    (json_output ts all_app_data).lookup "apps"
      = some (JVal.obj (all_app_data.map (fun p => (p.fst, JVal.snapshot p.snd)))) ∧
    (all_app_data.map (fun p => (p.fst, JVal.snapshot p.snd))).map Prod.fst
      = all_app_data.map Prod.fst := by
  refine ⟨rfl, rfl, rfl, ?_⟩
  simp

/-- C10: for every entry of the aggregated result whose REST snapshot is
a success and whose GraphQL snapshot is a failure, the `/metrics` output
contains the `github_app_status ... 1` line for that account (health is
computed from the REST snapshot alone), while that account's metric block
contains none of the three `github_graphql_rate_limit_*` gauges. -/
theorem C10_status_from_rest (data : List (String × Entry)) (app_name : String)
    (body : RestBody) (meta : AppMetadata) (g : GraphSnapshot)
    (hmem : (app_name,
      Entry.ok { rest_api := RestSnapshot.success body meta, graphql := g }) ∈ data)
    (hg : g.isFailure = true) :
    renderMetric { metricName := "github_app_status",
                   labels := appLabels app_name meta.app_id meta.installation_id,
                   value := 1 } ∈ prometheus_metrics data ∧
    ∀ m ∈ app_metric_lines app_name
        (Entry.ok { rest_api := RestSnapshot.success body meta, graphql := g }),
      m.metricName ≠ "github_graphql_rate_limit_limit" ∧
      m.metricName ≠ "github_graphql_rate_limit_remaining" ∧
      m.metricName ≠ "github_graphql_rate_limit_used" := by
  have hlines : app_metric_lines app_name
      (Entry.ok { rest_api := RestSnapshot.success body meta, graphql := g }) =
      { metricName := "github_app_status",
        labels := appLabels app_name meta.app_id meta.installation_id, value := 1 } ::
      body.resources.flatMap (fun p =>
        let bl := resourceLabels p.fst app_name meta.app_id meta.installation_id
        [{ metricName := "github_rate_limit_limit", labels := bl, value := p.snd.limit },
         { metricName := "github_rate_limit_remaining", labels := bl,
           value := p.snd.remaining },
         { metricName := "github_rate_limit_used", labels := bl, value := p.snd.used },
         { metricName := "github_rate_limit_reset", labels := bl, value := p.snd.reset }]) := by
    cases g with
    | success rl m2 => simp [GraphSnapshot.isFailure] at hg
    | apiError es m2 => simp [app_metric_lines, restMeta]
    | transportError msg m2 => simp [app_metric_lines, restMeta]
  constructor
  · apply List.mem_flatMap.mpr
    refine ⟨(app_name,
      Entry.ok { rest_api := RestSnapshot.success body meta, graphql := g }), hmem, ?_⟩
    rw [hlines]
    exact List.mem_map_of_mem renderMetric (List.mem_cons_self _ _)
  · intro m hm
    rw [hlines] at hm
    rcases List.mem_cons.mp hm with rfl | hm2
    · refine ⟨?_, ?_, ?_⟩ <;> simp
    · rcases List.mem_flatMap.mp hm2 with ⟨p, _, hp⟩
      simp only [List.mem_cons, List.not_mem_nil, or_false] at hp
      rcases hp with rfl | rfl | rfl | rfl <;> (refine ⟨?_, ?_, ?_⟩ <;> simp)

/-- C10 (witness): the concrete one-account aggregated result `data1`
(REST success, GraphQL transport failure) exposes the health gauge at 1
and no GraphQL gauges for that account. -/
theorem C10_witness :
    (("ci-automation",
      Entry.ok { rest_api := RestSnapshot.success body0 (metaOf appSig),
                 graphql := GraphSnapshot.transportError "timeout" (metaOf appSig) })
        ∈ data1) ∧
    renderMetric { metricName := "github_app_status",
                   labels := appLabels "ci-automation" (metaOf appSig).app_id
                     (metaOf appSig).installation_id,
                   value := 1 } ∈ prometheus_metrics data1 :=
  ⟨by decide,
   (C10_status_from_rest data1 "ci-automation" body0 (metaOf appSig)
     (GraphSnapshot.transportError "timeout" (metaOf appSig)) (by decide) rfl).1⟩

end GhCheck
